import Mathlib

/-!
Verification of the CookieJar implementation (mod.ts of ako-deno/cookies).

This file is a shallow embedding of the `CookieJar` class from mod.ts — the
revision that imports `ms` and `SameSite` from deps.ts — together with its
`Map` base class (the CookieStore), the stream of emitted response directives,
and a model of the external Keygrip signing collaborator.

Modelling conventions:
- JS `string | null | undefined` values are `Option String`; the two nullish
  values are collapsed into `none` (the code only ever distinguishes them when
  interpolating into a template literal, see `jsNullStr` / `jsUndefStr`).
- JS truthiness of a string is non-emptiness; of an options object, presence.
- Thrown exceptions are `Except.error` results.  Because the response object
  and the Map are mutated in place in JS, every operation returns the jar
  state as it is at the moment of return or throw, so partially performed
  mutations before a throw are observable, exactly as in the source.
- The header transport (std `setCookie` / `deleteCookie`) is an excluded
  external collaborator; emissions are recorded as an append-only list of
  `Directive`s.
- The `ms` duration parser is an excluded external collaborator; the model
  restricts `maxAge` to its numeric form and `expires` to an absolute epoch
  number, the only forms any claim touches.  The string-duration branches of
  the source cannot fire on these inputs and are therefore absent here.
-/

/-- Character class of `FIELD_CONTENT_REGEXP`: HTAB, visible ASCII 0x20-0x7e,
or obs-text 0x80-0xff (RFC 7230 field-content). -/
def okChar (c : Char) : Bool :=
  c.toNat == 9
    || (decide (32 ≤ c.toNat) && decide (c.toNat ≤ 126))
    || (decide (128 ≤ c.toNat) && decide (c.toNat ≤ 255))

/-- `FIELD_CONTENT_REGEXP.test(s)`: the regex is anchored with a `+`
quantifier, so it demands a nonempty string all of whose characters are in
the permitted class. -/
def fieldContent (s : String) : Bool := !s.data.isEmpty && s.data.all okChar

/-- JS truthiness of an optional string: `undefined`, `null` and `""` are
falsy, every other string truthy. -/
def truthyOS (v : Option String) : Bool :=
  match v with
  | some s => !s.data.isEmpty
  | none => false

/-- JS falsiness of the `value` argument (`!value`). -/
def falsyV (v : Option String) : Bool := !truthyOS v

/-- Template-literal stringification where a missing value prints as
`undefined` (the `super.get` result interpolated by `get`). -/
def jsUndefStr (v : Option String) : String := v.getD "undefined"

/-- Template-literal stringification where a missing value prints as `null`
(the nullish `value` argument interpolated by the signing branches; the model
collapses `null`/`undefined` into `none` and picks the `null` spelling —
no claim exercises a signing branch with a nullish value). -/
def jsNullStr (v : Option String) : String := v.getD "null"

/-- The `SAME_SITE` lookup table of mod.ts:
`(true : "Strict", strict : "Strict", lax : "Lax", none : "None")`. -/
def sameSiteTable (key : String) : Option String :=
  if key == "true" then some "Strict"
  else if key == "strict" then some "Strict"
  else if key == "lax" then some "Lax"
  else if key == "none" then some "None"
  else none

/-- Runtime value supplied for the `sameSite` option: the literal `true` or a
string (the declared TS type is `SameSite | true`). -/
inductive SameSiteInput
  | sTrue
  | sStr (s : String)
deriving DecidableEq, Repr

/-- JS truthiness of a `sameSite` input. -/
def SameSiteInput.truthy : SameSiteInput → Bool
  | .sTrue => true
  | .sStr s => !s.data.isEmpty

/-- `String(sameSite)`. -/
def SameSiteInput.jsString : SameSiteInput → String
  | .sTrue => "true"
  | .sStr s => s

/-- `String.prototype.toLowerCase` for the ASCII alphabet (every `sameSite`
input the table distinguishes is ASCII). -/
def asciiLower (s : String) : String := ⟨s.data.map Char.toLower⟩

/-- `typeof opts.sameSite == "string"`. -/
def SameSiteInput.isTypeString : SameSiteInput → Bool
  | .sTrue => false
  | .sStr _ => true

/-- Modelled from the spec: the external SigningKeyring collaborator
(spec sections 3 and 4.3, the Keygrip dependency, which is not part of this
repository).  The HMAC primitive is abstracted by a deterministic keyed tag
that is injective in the data for a fixed key; `sign` uses the current
(position-0) key and `index` returns the first matching key position or -1. -/
def hmacSign (key data : String) : String :=
  "hmac(" ++ key ++ ")(" ++ data ++ ")"

/-- Modelled from the spec: a keyring is a nonempty ordered list of secret
keys, most recent first. -/
structure Keygrip where
  key0 : String
  rest : List String
deriving DecidableEq, Repr

/-- Ordered key list of the keyring. -/
def Keygrip.keyList (g : Keygrip) : List String := g.key0 :: g.rest

/-- `Keygrip.sign(data)`: sign with the current key. -/
def Keygrip.sign (g : Keygrip) (data : String) : String := hmacSign g.key0 data

/-- `Keygrip.index(data, digest)`: position of the first key whose tag over
`data` equals `digest`, or -1. -/
def Keygrip.index (g : Keygrip) (data digest : String) : Int :=
  match g.keyList.findIdx? (fun k => hmacSign k data == digest) with
  | some i => Int.ofNat i
  | none => -1

/-- The cookie record handed to the std `setCookie` serializer. -/
structure Cookie where
  name : String
  value : Option String
  secure : Bool
  domain : Option String
  path : String
  httpOnly : Bool
  sameSite : Option String
  maxAge : Option Int
  expires : Option Int
deriving DecidableEq, Repr

/-- The `CookieOptions` interface.  `secure` and `overwrite` are read only
for truthiness, so they are plain `Bool`s defaulting to false; `maxAge` and
`expires` are restricted to their numeric forms (see the header comment). -/
structure CookieOptions where
  maxAge : Option Int := none
  expires : Option Int := none
  path : Option String := none
  domain : Option String := none
  secure : Bool := false
  httpOnly : Option Bool := none
  signed : Option Bool := none
  overwrite : Bool := false
  sameSite : Option SameSiteInput := none
deriving DecidableEq, Repr

/-- Errors thrown by the jar: `TypeError` for validation, `Error` for policy. -/
inductive JarError
  | typeError (msg : String)
  | error (msg : String)
deriving DecidableEq, Repr

/-- One outgoing response mutation: a serialized Set-Cookie directive from the
std `setCookie` collaborator, or the expiring directive appended by the std
`deleteCookie` collaborator. -/
inductive Directive
  | emit (c : Cookie)
  | expire (name : String)
deriving DecidableEq, Repr

/-- `Map.prototype.get` on the CookieStore. -/
def storeGet (st : List (String × String)) (k : String) : Option String :=
  match st.find? (fun p => p.1 == k) with
  | some p => some p.2
  | none => none

/-- `Map.prototype.has` on the CookieStore. -/
def storeHas (st : List (String × String)) (k : String) : Bool :=
  (st.find? (fun p => p.1 == k)).isSome

/-- `Map.prototype.set` on the CookieStore (replace in place or append). -/
def storeSet (st : List (String × String)) (k v : String) : List (String × String) :=
  if storeHas st k then st.map (fun p => if p.1 == k then (k, v) else p)
  else st ++ [(k, v)]

/-- `Map.prototype.delete` on the CookieStore (the Bool result is taken from
`storeHas` at the call sites). -/
def storeDel (st : List (String × String)) (k : String) : List (String × String) :=
  st.filter (fun p => p.1 != k)

/-- State of one `CookieJar`: the inherited Map (CookieStore), the response
directive log, the connection-security flag, and the optional keyring. -/
structure CookieJar where
  store : List (String × String)
  res : List Directive
  secure : Bool
  keys : Option Keygrip
deriving DecidableEq, Repr

/-- The constructor: seed the store from the parsed request cookies via
`super.set`, with an empty response log. -/
def CookieJar.create (reqCookies : List (String × String)) (secure : Bool)
    (keys : Option Keygrip) : CookieJar :=
  { store := reqCookies.foldl (fun st p => storeSet st p.1 p.2) []
    res := []
    secure := secure
    keys := keys }

/-- The private `setCookie(name, value, opts)` method: secure-policy check,
sameSite parse, record construction, emission of the base directive, and —
when signing resolves on — emission of a `<name>.sig` directive whose
signature is computed over `"<name>.sig=<value>"` (the source mutates
`cookie.name` before signing).  Returns `true` (unit here) or throws; the jar
component carries the directives already emitted at the moment of a throw. -/
def CookieJar.setCookie (jar : CookieJar) (name : String) (value : Option String)
    (opts : CookieOptions) : Except JarError Unit × CookieJar :=
  if !jar.secure && opts.secure then
    (.error (.error "Cannot send secure cookie over unencrypted connection"), jar)
  else
    let sameSiteRes : Except JarError (Option String) :=
      match opts.sameSite with
      | some ss =>
        if ss.truthy then
          if !ss.isTypeString then .error (.typeError "option sameSite is invalid")
          else .ok (sameSiteTable (asciiLower ss.jsString))
        else .ok (some ss.jsString)
      | none => .ok none
    match sameSiteRes with
    | .error e => (.error e, jar)
    | .ok sameSite =>
      let cookie : Cookie :=
        { name := name
          value := value
          secure := opts.secure
          domain := opts.domain
          path := opts.path.getD "/"
          httpOnly := opts.httpOnly.getD true
          sameSite := sameSite
          maxAge := opts.maxAge
          expires := opts.expires }
      let jar := { jar with res := jar.res ++ [Directive.emit cookie] }
      if opts.signed.getD jar.keys.isSome then
        match jar.keys with
        | none => (.error (.error ".keys required for signed cookies"), jar)
        | some g =>
          let name2 := cookie.name ++ ".sig"
          let value2 := g.sign (name2 ++ "=" ++ jsNullStr cookie.value)
          let cookie2 := { cookie with name := name2, value := some value2 }
          (.ok (), { jar with res := jar.res ++ [Directive.emit cookie2] })
      else (.ok (), jar)

/-- The public `delete(name, opts?)` method: validate the name; with an
options object, force `maxAge` falsy and `expires` to the epoch and route
through the private `setCookie`; otherwise append the std `deleteCookie`
expiring directive; in both branches finish with `super.delete(name)`. -/
def CookieJar.delete (jar : CookieJar) (name : String) (opts : Option CookieOptions) :
    Except JarError Bool × CookieJar :=
  if !fieldContent name then (.error (.typeError "argument name is invalid"), jar)
  else
    match opts with
    | some o =>
      let o := { o with maxAge := none, expires := some 0 }
      match jar.setCookie name (some "") o with
      | (.error e, jar) => (.error e, jar)
      | (.ok _, jar) =>
        (.ok (storeHas jar.store name), { jar with store := storeDel jar.store name })
    | none =>
      let jar := { jar with res := jar.res ++ [Directive.expire name] }
      (.ok (storeHas jar.store name), { jar with store := storeDel jar.store name })

/-- The public `set(name, value, options?)` method of mod.ts: nullish value
with no options delegates to `delete`; otherwise the overwrite guard, the
field-content validations, the private `setCookie`, and — when signing
resolves on — a second `setCookie` for `<name>.sig` whose signature is again
computed over `"<name>.sig=<value>"` (the source appends `".sig"` to `name`
before building the data string).  No branch writes the CookieStore. -/
def CookieJar.set (jar : CookieJar) (name : String) (value : Option String)
    (options : Option CookieOptions) : Except JarError Unit × CookieJar :=
  if falsyV value && options.isNone then
    let r := jar.delete name none
    (r.1.map (fun _ => ()), r.2)
  else
    let opts := options.getD {}
    if !opts.overwrite && storeHas jar.store name then (.ok (), jar)
    else if !fieldContent name then
      (.error (.typeError "argument name is invalid"), jar)
    else if truthyOS value && !fieldContent (value.getD "") then
      (.error (.typeError "argument value is invalid"), jar)
    else if truthyOS opts.path && !fieldContent (opts.path.getD "") then
      (.error (.typeError "option path is invalid"), jar)
    else if truthyOS opts.domain && !fieldContent (opts.domain.getD "") then
      (.error (.typeError "option domain is invalid"), jar)
    else
      match jar.setCookie name value opts with
      | (.error e, jar) => (.error e, jar)
      | (.ok _, jar) =>
        if opts.signed.getD jar.keys.isSome then
          match jar.keys with
          | none => (.error (.error ".keys required for signed cookies"), jar)
          | some g =>
            let name2 := name ++ ".sig"
            let value2 := g.sign (name2 ++ "=" ++ jsNullStr value)
            jar.setCookie name2 (some value2) opts
        else (.ok (), jar)

/-- The public `get(name, opts?)` method: read the store; when signing
resolves on and a truthy signature entry exists, verify
`"<name>=<value>"` against it; position -1 deletes the shadow entry and
returns undefined; a positive position calls `set` on the shadow entry (which
the overwrite guard turns into a no-op); position 0 returns the value. -/
def CookieJar.get (jar : CookieJar) (name : String) (opts : Option (Option Bool)) :
    Except JarError (Option String) × CookieJar :=
  let signed :=
    match opts with
    | some (some b) => b
    | some none => jar.keys.isSome
    | none => jar.keys.isSome
  let value := storeGet jar.store name
  if signed then
    let signatureName := name ++ ".sig"
    match storeGet jar.store signatureName with
    | some signature =>
      if !signature.data.isEmpty then
        match jar.keys with
        | none => (.error (.error "Keys required for signed cookies"), jar)
        | some g =>
          let data := name ++ "=" ++ jsUndefStr value
          let idx := g.index data signature
          if idx == -1 then
            let r := jar.delete signatureName none
            match r.1 with
            | .error e => (.error e, r.2)
            | .ok _ => (.ok none, r.2)
          else if idx != 0 then
            let r := jar.set signatureName (some (g.sign data))
              (some { signed := some false })
            match r.1 with
            | .error e => (.error e, r.2)
            | .ok _ => (.ok value, r.2)
          else (.ok value, jar)
      else (.ok value, jar)
    | none => (.ok value, jar)
  else (.ok value, jar)

/-- The public `has(name)` method, inherited from `Map`. -/
def CookieJar.has (jar : CookieJar) (name : String) : Bool :=
  storeHas jar.store name

/-- `i`-th position of `s` carries the substring `pat` (ASCII positions). -/
def substrAt (s pat : String) (i : Nat) : Bool :=
  ((s.data.drop i).take pat.data.length) == pat.data

/-- `String.prototype.lastIndexOf(pat)`: the largest matching position, if
any. -/
def lastIdxOf (s pat : String) : Option Nat :=
  ((List.range (s.data.length + 1)).filter (fun i => substrAt s pat i)).getLast?

/-- The public `clear()` method: append an expiring directive for every
stored name, except names containing `".sig"` whose prefix before its last
occurrence is itself a stored name; then clear the store. -/
def CookieJar.clear (jar : CookieJar) : CookieJar :=
  let res := jar.store.foldl (fun acc p =>
    match lastIdxOf p.1 ".sig" with
    | some i =>
      if storeHas jar.store ⟨p.1.data.take i⟩ then acc
      else acc ++ [Directive.expire p.1]
    | none => acc ++ [Directive.expire p.1]) jar.res
  { jar with res := res, store := [] }

/-! ## Shared concrete instances and store lemmas -/

/-- Keyring with the single key `k1`. -/
def gK1 : Keygrip := { key0 := "k1", rest := [] }

/-- Keyring after rotation: current key `k2`, older key `k1`. -/
def gK2K1 : Keygrip := { key0 := "k2", rest := ["k1"] }

theorem find?_filter_ne_none (st : List (String × String)) (k : String) :
    (st.filter (fun p => p.1 != k)).find? (fun p => p.1 == k) = none := by
  induction st with
  | nil => rfl
  | cons p st ih =>
    by_cases h : p.1 = k
    · simp [List.filter_cons, h, ih]
    · simp [List.filter_cons, h, List.find?_cons, ih]

theorem storeHas_storeDel_self (st : List (String × String)) (k : String) :
    storeHas (storeDel st k) k = false := by
  simp [storeHas, storeDel, find?_filter_ne_none]

theorem find?_filter_ne (st : List (String × String)) (k k' : String)
    (hne : k' ≠ k) :
    (st.filter (fun p => p.1 != k)).find? (fun p => p.1 == k') =
      st.find? (fun p => p.1 == k') := by
  induction st with
  | nil => rfl
  | cons p st ih =>
    by_cases h : p.1 = k
    · have hk' : (k == k') = false := beq_eq_false_iff_ne.mpr (Ne.symm hne)
      simp [List.filter_cons, h, hk', ih]
    · by_cases h2 : p.1 = k'
      · simp [List.filter_cons, h, h2, hne]
      · simp [List.filter_cons, h, h2, ih]

theorem storeGet_storeDel_ne (st : List (String × String)) (k k' : String)
    (hne : k' ≠ k) :
    storeGet (storeDel st k) k' = storeGet st k' := by
  simp [storeGet, storeDel, find?_filter_ne st k k' hne]

theorem ne_append_sig (name : String) : name ≠ name ++ ".sig" := by
  intro h
  have hlen : name.length = (name ++ ".sig").length := congrArg String.length h
  have h4 : String.length ".sig" = 4 := rfl
  rw [String.length_append, h4] at hlen
  omega

/-- Decidable equality for `Except` results, so concrete runs of the jar can
be settled by `decide`. -/
instance instDecEqExcept {e a : Type} [DecidableEq e] [DecidableEq a] :
    DecidableEq (Except e a) := fun x y =>
  match x, y with
  | .ok u, .ok v =>
    if h : u = v then .isTrue (congrArg Except.ok h)
    else .isFalse (fun hc => h (Except.ok.inj hc))
  | .error u, .error v =>
    if h : u = v then .isTrue (congrArg Except.error h)
    else .isFalse (fun hc => h (Except.error.inj hc))
  | .ok _, .error _ => .isFalse (fun hc => Except.noConfusion hc)
  | .error _, .ok _ => .isFalse (fun hc => Except.noConfusion hc)

/-! ## Claims -/

/-- C1: the signed round trip fails on the code.  With keyring `[k1]`,
`set("LastVisit","100",{signed:true})` computes its signature over
`"LastVisit.sig=100"` (the source appends `".sig"` to the name before
building the data string) and never writes the CookieStore; `get` verifies
`"LastVisit=100"`, so the stored signature never matches: a `get` in the same
jar returns undefined (empty store), and a `get` in a follow-up jar seeded
with exactly the two cookies the `set` emitted verifies at position -1,
deletes the shadow entry and returns undefined. -/
theorem C1_signed_roundtrip_broken :
    ((((CookieJar.create [] true (some gK1)).set "LastVisit" (some "100")
        (some { signed := some true })).2).get "LastVisit" (some (some true))).1 =
      Except.ok none ∧
    (((CookieJar.create [] true (some gK1)).set "LastVisit" (some "100")
        (some { signed := some true })).2).res[1]? =
      some (Directive.emit
        { name := "LastVisit.sig", value := some (hmacSign "k1" "LastVisit.sig=100")
          secure := false, domain := none, path := "/", httpOnly := true
          sameSite := none, maxAge := none, expires := none }) ∧
    gK1.index "LastVisit=100" (hmacSign "k1" "LastVisit.sig=100") = -1 ∧
    (CookieJar.create [("LastVisit", "100"),
        ("LastVisit.sig", hmacSign "k1" "LastVisit.sig=100")] true
        (some gK1)).get "LastVisit" (some (some true)) =
      (Except.ok none,
        { store := [("LastVisit", "100")]
          res := [Directive.expire "LastVisit.sig"]
          secure := true
          keys := some gK1 }) := by
  refine ⟨by decide, by decide, by decide, by decide⟩

/-- Jar for the key-rotation scenario: keyring rotated to `[k2, k1]`, request
carrying `n=v` and a shadow cookie signed under the older key `k1`. -/
def jarC3 : CookieJar :=
  { store := [("n", "v"), ("n.sig", hmacSign "k1" "n=v")]
    res := []
    secure := false
    keys := some gK2K1 }

/-- C3: key rotation does not re-sign.  The stored signature verifies at
position 1, and `get` returns the value, but the re-signing call
`this.set(signatureName, sign, {signed:false})` is silenced by the overwrite
guard (`n.sig` is already in the store), so `get` returns the jar completely
unchanged: no directive is emitted, the shadow entry keeps the old signature
(not the position-0 signature the claim requires), and an immediately
following `get` verifies at position 1 again, not 0. -/
theorem C3_rotation_resign_noop :
    jarC3.get "n" none = (Except.ok (some "v"), jarC3) ∧
    gK2K1.index "n=v" (hmacSign "k1" "n=v") = 1 ∧
    storeGet jarC3.store "n.sig" ≠ some (gK2K1.sign "n=v") := by
  refine ⟨by decide, by decide, by decide⟩

/-- C5: a signing error is raised after the base directive is emitted.  On a
jar with no keys, `set("n","v",{signed:true})` first hands the base cookie to
the transport (the directive is in the response log) and only then throws
`.keys required for signed cookies`, leaving the emitted base directive
behind — the partial effect the claim rules out. -/
theorem C5_signing_error_after_emission :
    (CookieJar.create [] false none).set "n" (some "v") (some { signed := some true }) =
      (Except.error (JarError.error ".keys required for signed cookies"),
        { store := []
          res := [Directive.emit
            { name := "n", value := some "v", secure := false, domain := none
              path := "/", httpOnly := true, sameSite := none, maxAge := none
              expires := none }]
          secure := false
          keys := none }) := by
  decide

/-- Jar holding a base entry and its shadow entry, no keyring. -/
def jarC7 : CookieJar :=
  { store := [("n", "v"), ("n.sig", "s1")]
    res := []
    secure := false
    keys := none }

/-- C7: the shadow-pair invariant is violated by `delete`.  On a jar holding
both `n` and `n.sig`, `delete("n")` removes only the base entry and emits
only one expiring directive; the shadow entry survives, so
`has("n.sig")` is still true afterwards. -/
theorem C7_delete_orphans_shadow :
    jarC7.delete "n" none =
      (Except.ok true,
        { store := [("n.sig", "s1")]
          res := [Directive.expire "n"]
          secure := false
          keys := none }) ∧
    (jarC7.delete "n" none).2.has "n.sig" = true := by
  refine ⟨by decide, by decide⟩

/-- C9: the sameSite handling contradicts the claim (and the code's own
`SAME_SITE` table) in both directions.  `sameSite: true` throws
`option sameSite is invalid` even though the table maps `"true"` to
`"Strict"`, because the guard tests `typeof opts.sameSite != "string"` on the
unmapped input; and the out-of-table string `"foo"` raises no error at all —
the call succeeds with the attribute silently dropped. -/
theorem C9_sameSite_divergence :
    (CookieJar.create [] false none).set "n" (some "v")
        (some { sameSite := some SameSiteInput.sTrue }) =
      (Except.error (JarError.typeError "option sameSite is invalid"),
        CookieJar.create [] false none) ∧
    ((CookieJar.create [] false none).set "n" (some "v")
        (some { sameSite := some (SameSiteInput.sStr "foo") })).1 = Except.ok () ∧
    sameSiteTable "true" = some "Strict" := by
  refine ⟨by decide, by decide, by decide⟩

/-- C2 counterexample: on a fresh keyless jar, `get("n")` after
`set("n","v")` returns undefined, not `"v"` — `set` never writes the
CookieStore. -/
theorem C2_counterexample :
    (((CookieJar.create [] false none).set "n" (some "v") none).2.get "n" none).1 =
      Except.ok none ∧
    (((CookieJar.create [] false none).set "n" (some "v") none).2.get "n" none).1 ≠
      Except.ok (some "v") := by
  refine ⟨by decide, by decide⟩

/-- C6 counterexample: on a fresh keyless jar, `set("n","a")` followed by
`set("n","b")` does not leave stored value `"a"`: no store entry exists at
all, and the second call emitted a second directive instead of being the
claimed no-op. -/
theorem C6_counterexample :
    storeGet ((((CookieJar.create [] false none).set "n" (some "a") none).2.set
        "n" (some "b") none).2).store "n" ≠ some "a" ∧
    ((((CookieJar.create [] false none).set "n" (some "a") none).2.set
        "n" (some "b") none).2).res.length = 2 := by
  refine ⟨by decide, by decide⟩

/-- C8 counterexample: with an options object supplied, a nullish value does
not behave like `delete`: on a jar seeded with `n=v`, `set("n", null, ..)`
leaves the entry in the store (the call is a no-op), while `delete("n")`
removes it. -/
theorem C8_counterexample :
    storeGet (((CookieJar.create [("n", "v")] false none).set "n" none
        (some {})).2).store "n" = some "v" ∧
    storeGet (((CookieJar.create [("n", "v")] false none).delete "n" none).2).store
        "n" = none := by
  refine ⟨by decide, by decide⟩

/-- C2 amended claim: on a keyless jar, a validated `set(name, v)` succeeds
but never writes the CookieStore — when the name is already present it is a
no-op, otherwise it only appends the base directive — so a following
`get(name)` returns whatever the store already held for `name` (the
request-seeded value, or undefined on a fresh jar), not necessarily `v`. -/
theorem C2_set_never_stores (j : CookieJar) (name v : String)
    (hk : j.keys = none) (hn : fieldContent name = true) (hv : fieldContent v = true) :
    ∃ j', j.set name (some v) none = (Except.ok (), j') ∧
      j'.store = j.store ∧
      j'.get name none = (Except.ok (storeGet j.store name), j') := by
  have hve : v.data.isEmpty = false := by
    simp only [fieldContent, Bool.and_eq_true, Bool.not_eq_true'] at hv
    exact hv.1
  by_cases h : storeHas j.store name = true
  · refine ⟨j, ?_, rfl, ?_⟩
    · simp [CookieJar.set, falsyV, truthyOS, hve, h]
    · simp [CookieJar.get, hk]
  · refine ⟨{ j with res := j.res ++ [Directive.emit
      { name := name, value := some v, secure := false, domain := none, path := "/",
        httpOnly := true, sameSite := none, maxAge := none, expires := none }] }, ?_, rfl, ?_⟩
    · simp [CookieJar.set, falsyV, truthyOS, hve, h, hn, hv, CookieJar.setCookie, hk]
    · simp [CookieJar.get, hk]

/-- C2 witness: the amended theorem evaluated on a fresh keyless jar with
`set("n","v")`. -/
theorem C2_set_never_stores_witness :
    ∃ j', (CookieJar.create [] false none).set "n" (some "v") none = (Except.ok (), j') ∧
      j'.store = (CookieJar.create [] false none).store ∧
      j'.get "n" none =
        (Except.ok (storeGet (CookieJar.create [] false none).store "n"), j') :=
  C2_set_never_stores (CookieJar.create [] false none) "n" "v" rfl (by decide) (by decide)

/-- C4: forged signature handling.  On any jar with a keyring, when the
(truthy) stored signature for `name` verifies at position -1 against the data
string `get` checks, `get(name)` returns undefined and deletes the shadow
entry from the CookieStore, so `has("<name>.sig")` is false afterwards while
the base entry is untouched.  (The jar also emits the expiring directive of
`delete`.)  The field-content hypothesis on the shadow name reflects that
every name reachable through the public API has been validated. -/
theorem C4_forged_signature_get (j : CookieJar) (name sig : String) (g : Keygrip)
    (hk : j.keys = some g)
    (hsig : storeGet j.store (name ++ ".sig") = some sig)
    (hne : sig.data.isEmpty = false)
    (hname : fieldContent (name ++ ".sig") = true)
    (hidx : g.index (name ++ "=" ++ jsUndefStr (storeGet j.store name)) sig = -1) :
    j.get name none =
      (Except.ok none,
        { j with res := j.res ++ [Directive.expire (name ++ ".sig")],
                 store := storeDel j.store (name ++ ".sig") }) ∧
    storeHas (storeDel j.store (name ++ ".sig")) (name ++ ".sig") = false ∧
    storeGet (storeDel j.store (name ++ ".sig")) name = storeGet j.store name := by
  refine ⟨?_, storeHas_storeDel_self _ _, storeGet_storeDel_ne _ _ _ (ne_append_sig name)⟩
  simp only [CookieJar.get, hk, Option.isSome_some, hsig, hne, hidx, CookieJar.delete, hname]
  simp

/-- Jar carrying a base cookie and a forged shadow signature. -/
def jarC4 : CookieJar :=
  { store := [("n", "v"), ("n.sig", "bad")]
    res := []
    secure := false
    keys := some gK1 }

/-- C4 witness: the theorem evaluated on a jar whose `n.sig` entry is the
forged string `"bad"`. -/
theorem C4_forged_signature_get_witness :
    jarC4.get "n" none =
      (Except.ok none,
        { jarC4 with res := jarC4.res ++ [Directive.expire ("n" ++ ".sig")],
                     store := storeDel jarC4.store ("n" ++ ".sig") }) ∧
    storeHas (storeDel jarC4.store ("n" ++ ".sig")) ("n" ++ ".sig") = false ∧
    storeGet (storeDel jarC4.store ("n" ++ ".sig")) "n" = storeGet jarC4.store "n" :=
  C4_forged_signature_get jarC4 "n" "bad" gK1 rfl (by decide) (by decide) (by decide)
    (by decide)

/-- C6 amended claim: the no-overwrite guard only ever sees request-seeded
names, because `set` never writes the CookieStore.  For a name present in
the store, `set` without overwrite is a no-op exactly as claimed, but
`set(name, v, {overwrite:true})` does not replace the stored value either —
it emits a directive while the store keeps its prior value. -/
theorem C6_overwrite_on_seeded_only (j : CookieJar) (name v : String)
    (hk : j.keys = none)
    (hpres : storeHas j.store name = true)
    (hn : fieldContent name = true) (hv : fieldContent v = true) :
    j.set name (some v) none = (Except.ok (), j) ∧
    (j.set name (some v) (some { overwrite := true })).2.store = j.store := by
  have hve : v.data.isEmpty = false := by
    simp only [fieldContent, Bool.and_eq_true, Bool.not_eq_true'] at hv
    exact hv.1
  constructor
  · simp [CookieJar.set, falsyV, truthyOS, hve, hpres]
  · simp [CookieJar.set, falsyV, truthyOS, hve, hn, hv, CookieJar.setCookie, hk]

/-- C6 witness: the amended theorem evaluated on a jar seeded with `n=a` and
the write attempt `set("n","b")`. -/
theorem C6_overwrite_on_seeded_only_witness :
    (CookieJar.create [("n", "a")] false none).set "n" (some "b") none =
      (Except.ok (), CookieJar.create [("n", "a")] false none) ∧
    ((CookieJar.create [("n", "a")] false none).set "n" (some "b")
        (some { overwrite := true })).2.store =
      (CookieJar.create [("n", "a")] false none).store :=
  C6_overwrite_on_seeded_only (CookieJar.create [("n", "a")] false none) "n" "b" rfl
    (by decide) (by decide) (by decide)

/-- C8 amended claim: `set(name, nullish)` behaves identically to
`delete(name)` only when no options argument is supplied (the source
delegates to `delete` exactly in that case); as soon as an options object is
passed, the nullish value is not treated as a deletion — for a name present
in the store the call is a plain no-op. -/
theorem C8_nullish_no_opts_is_delete (j : CookieJar) (name : String) :
    j.set name none none =
      ((j.delete name none).1.map (fun _ => ()), (j.delete name none).2) ∧
    (storeHas j.store name = true →
      j.set name none (some {}) = (Except.ok (), j)) := by
  constructor
  · rfl
  · intro h
    simp [CookieJar.set, falsyV, truthyOS, h]

/-- C8 witness: the amended theorem evaluated on a jar seeded with `n=v`,
discharging the presence hypothesis of its second conjunct. -/
theorem C8_nullish_no_opts_is_delete_witness :
    (CookieJar.create [("n", "v")] false none).set "n" none (some {}) =
      (Except.ok (), CookieJar.create [("n", "v")] false none) :=
  (C8_nullish_no_opts_is_delete (CookieJar.create [("n", "v")] false none) "n").2
    (by decide)
